import Mathlib

/-!
# Motia orchestration core — shallow embedding

This file embeds, in Lean 4, the parts of the Motia runtime source that the
verified claims are about:

* `InMemoryMessageBus.publish` (fan-out with per-subscriber error catching),
* `MotiaCore.eventMatchesPattern` (topic pattern matching),
* the subscription wrapper installed by `MotiaCore.initialize`
  (how a component handler is invoked on a matching event),
* `MotiaServer.registerTraffic` / `MotiaServer.handleRequest`
  (route registration and HTTP trigger handling),
* the request handler created by `createServer`'s `asyncHandler`
  (the TypeScript server variant that mints a trace id per request),
* `MotiaScheduler.parseSchedule` / `MotiaScheduler.start`.

JavaScript strings are modelled by Lean `String`, with character-level
helpers mirroring the char-based semantics of JS `startsWith` / `endsWith` /
`slice` / `split`.  A JS `Map` is modelled as an insertion-ordered
association list whose `set` replaces in place.  Thrown exceptions are
modelled with `Except String`, promises by plain values, and `async`
handlers by functions returning `Except`.
-/

namespace Motia

/-- JS `s.startsWith(p)` on character lists: `startsWithChars s p` is true
iff `p` is a leading segment of `s`. -/
def startsWithChars : List Char → List Char → Bool
  | _, [] => true
  | [], _ :: _ => false
  | c :: cs, p :: ps => c = p && startsWithChars cs ps

/-- JS `s.endsWith(p)` on character lists, via reversal. -/
def endsWithChars (s suffixChars : List Char) : Bool :=
  startsWithChars s.reverse suffixChars.reverse

/-- An event as published on the bus: `{ type, data }`.  The payload is
opaque to the core; we model it as a string. -/
structure Event where
  type : String
  data : String
  deriving DecidableEq, Repr

/--
`MotiaCore.eventMatchesPattern(eventType, pattern)` from the source:

```js
if (pattern === "*") return true;
if (pattern === eventType) return true;
if (pattern.endsWith(".*")) {
  const prefix = pattern.slice(0, -2);
  return eventType.startsWith(prefix);
}
return false;
```

Note that `slice(0, -2)` removes the final `".*"` — the separating dot
included — so the retained leading segment does **not** end in a dot.
-/
def eventMatchesPattern (eventType pattern : String) : Bool :=
  if pattern = "*" then true
  else if pattern = eventType then true
  else if endsWithChars pattern.toList ['.', '*'] then
    startsWithChars eventType.toList (pattern.toList.dropLast.dropLast)
  else false

/-- JS `parseInt(value, 10)` restricted to all-digit strings, as guaranteed
by the schedule regex `^(\d+)(s|m|h|d)$`. -/
def digitsToNat (cs : List Char) : Nat :=
  cs.foldl (fun acc c => acc * 10 + (c.toNat - 48)) 0

/-- The `switch (unit)` of `MotiaScheduler.parseSchedule`: milliseconds per
one unit (`default: return 0` is unreachable under the regex). -/
def unitMultiplier (u : Char) : Nat :=
  if u = 's' then 1000
  else if u = 'm' then 60 * 1000
  else if u = 'h' then 60 * 60 * 1000
  else if u = 'd' then 24 * 60 * 60 * 1000
  else 0

/-- Whether `^(\d+)(s|m|h|d)$` accepts the character list: a non-empty
digit block followed by a single unit letter. -/
def timeRegexAccepts (cs : List Char) : Bool :=
  match cs.getLast? with
  | none => false
  | some u =>
    (u = 's' || u = 'm' || u = 'h' || u = 'd') &&
      !cs.dropLast.isEmpty && cs.dropLast.all (·.isDigit)

/-- JS `s.split(" ")` on character lists: split at every single space,
keeping empty tokens (`"".split(" ")` is `[""]`). -/
def splitOnSpace : List Char → List (List Char)
  | [] => [[]]
  | c :: rest =>
    if c = ' ' then [] :: splitOnSpace rest
    else
      match splitOnSpace rest with
      | [] => [[c]]
      | t :: ts => (c :: t) :: ts

/--
`MotiaScheduler.parseSchedule(schedule)` from the source: the duration
grammar `<integer><unit>` with unit ∈ {s,m,h,d} yields milliseconds; a
string with exactly 5 space-separated tokens is the reserved cron form,
degraded to a fixed hour (`return 60 * 60 * 1000`); anything else throws
`Invalid schedule format: ${schedule}`.
-/
def parseSchedule (schedule : String) : Except String Nat :=
  if timeRegexAccepts schedule.toList then
    Except.ok
      (digitsToNat schedule.toList.dropLast * unitMultiplier (schedule.toList.getLastD ' '))
  else if (splitOnSpace schedule.toList).length = 5 then
    Except.ok (60 * 60 * 1000)
  else
    Except.error ("Invalid schedule format: " ++ schedule)

/-- The options object passed alongside an event on `core.emit`: in
`MotiaServer.handleRequest` it is
`{ traceId: req.headers["x-trace-id"], metadata: { source, path, method } }`.
The trace id is `Option`al because the header may be absent
(`undefined` in JS). -/
structure EmitOptions where
  traceId : Option String
  source : String
  path : String
  method : String
  deriving DecidableEq, Repr

/-- A bus subscriber as stored by `InMemoryMessageBus.subscribe`: an async
function of the event and the options, which may reject. -/
abbrev Subscriber : Type :=
  Event → EmitOptions → Except String Unit

/-- The per-subscriber `.catch` in `InMemoryMessageBus.publish`: a rejection
is logged (`console.error`) and swallowed, so the wrapped promise always
fulfils. -/
def catchSubscriberError (r : Except String Unit) : Except String Unit :=
  match r with
  | Except.ok u => Except.ok u
  | Except.error _ => Except.ok ()

/-- JS `Promise.all` over already-settled promises: fulfils with the list
of all values when every element fulfils, rejects when any element
rejects. -/
def promiseAll : List (Except String Unit) → Except String (List Unit)
  | [] => Except.ok []
  | Except.error e :: _ => Except.error e
  | Except.ok u :: rest =>
    match promiseAll rest with
    | Except.ok us => Except.ok (u :: us)
    | Except.error e => Except.error e

/--
`InMemoryMessageBus.publish(event, options)` from the source:

```js
await Promise.all(
  this.subscribers.map((subscriber) =>
    subscriber(event, options).catch((error) => { console.error(...); })))
```

`Promise.all` rejects if any element rejects; the `.catch` wrapper prevents
that, so `publish` fulfils once every subscriber has settled.
-/
def publish (subscribers : List Subscriber) (event : Event) (options : EmitOptions) :
    Except String (List Unit) :=
  promiseAll
    (subscribers.map (fun subscriber => catchSubscriberError (subscriber event options)))

/-- The raw per-subscriber outcomes of one fan-out round: the `i`-th entry
is exactly what calling the `i`-th subscriber on this event yields, so it
records that each subscriber is invoked with the same event. -/
def publishOutcomes (subscribers : List Subscriber) (event : Event) (options : EmitOptions) :
    List (Except String Unit) :=
  subscribers.map (fun subscriber => subscriber event options)

/-- The record of one component invocation made by the subscription wrapper
that `MotiaCore.initialize` installs: the component is called as
`component(event.data, (e) => this.emit(e, opts), event.type)`. -/
structure ComponentCall where
  input : String
  emitFn : Event → Event × EmitOptions
  thirdArg : String

/--
The subscription wrapper from `MotiaCore.initialize`:

```js
this.messageBus.subscribe(async (event, opts) => {
  if (this.eventMatchesPattern(event.type, eventPattern)) {
    await component(event.data, (e) => this.emit(e, opts), event.type);
  }
});
```

We reify the component invocation: `some call` when the event matches the
pattern (with the exact three arguments passed), `none` when the wrapper
does not invoke the component.  The emit closure re-publishes any further
event under the inherited options `opts`.
-/
def subscriptionWrapper (eventPattern : String) (event : Event) (opts : EmitOptions) :
    Option ComponentCall :=
  if eventMatchesPattern event.type eventPattern then
    some { input := event.data
           emitFn := fun e => (e, opts)
           thirdArg := event.type }
  else none

/-- An inbound HTTP request as seen by `MotiaServer.handleRequest`. -/
structure Request where
  path : String
  method : String
  headers : List (String × String)
  body : String

/-- JS `req.headers[name]`: first binding wins, `undefined` is `none`. -/
def headerGet (req : Request) (name : String) : Option String :=
  (req.headers.find? (fun h => h.1 = name)).map Prod.snd

/-- A traffic configuration as consumed by `MotiaServer.registerTraffic`:
`path`, `method`, an optional `authorize` check and the `transform`
function.  `transform` is optional only so that the JS falsiness check
`!config.transform` is representable; `authorize` is genuinely optional in
the source. -/
structure TrafficConfig where
  path : String
  method : String
  authorize : Option (Request → Except String Unit)
  transform : Option (Request → Except String Event)

/-- The server's `this.traffic` JS `Map`, as an insertion-ordered
association list. -/
abbrev TrafficMap : Type :=
  List (String × TrafficConfig)

/-- JS `Map.prototype.set`: replace in place if the key exists, otherwise
append. -/
def mapSet : TrafficMap → String → TrafficConfig → TrafficMap
  | [], k, v => [(k, v)]
  | (k', v') :: rest, k, v =>
    if k' = k then (k, v) :: rest else (k', v') :: mapSet rest k v

/-- JS `Map.prototype.get` (`undefined` is `none`). -/
def mapGet : TrafficMap → String → Option TrafficConfig
  | [], _ => none
  | (k', v') :: rest, k => if k' = k then some v' else mapGet rest k

/-- The path normalization in `MotiaServer.registerTraffic`:
`config.path.startsWith("/") ? config.path : `/${config.path}``. -/
def normalizePath (p : String) : String :=
  if startsWithChars p.toList ['/'] then p else "/" ++ p

/--
`MotiaServer.registerTraffic(config)` from the source:

```js
if (!config.path || !config.method || !config.transform) {
  throw new Error("Invalid traffic configuration");
}
const path = config.path.startsWith("/") ? config.path : `/${config.path}`;
this.traffic.set(path, config);
```

JS falsiness of a string is emptiness; a missing `transform` is `none`.
-/
def registerTraffic (traffic : TrafficMap) (config : TrafficConfig) :
    Except String TrafficMap :=
  if config.path = "" || config.method = "" || config.transform.isNone then
    Except.error "Invalid traffic configuration"
  else
    Except.ok (mapSet traffic (normalizePath config.path) config)

/-- An HTTP response: status code plus (JSON-serialized) body text. -/
structure Response where
  status : Nat
  body : String
  deriving DecidableEq, Repr

/-- The observable outcome of one `handleRequest` call: the response sent,
the events emitted on the core (with their options), and whether the
route's `transform` function was invoked. -/
structure HandleResult where
  response : Response
  emitted : List (Event × EmitOptions)
  transformCalled : Bool

/-- The options object `handleRequest` builds for `core.emit`: the trace id
is read from the inbound `x-trace-id` header (absent when the header is
missing — no fresh id is generated), and the metadata records the source,
path and method of the request. -/
def emitOptionsFor (req : Request) : EmitOptions :=
  { traceId := headerGet req "x-trace-id"
    source := "http"
    path := req.path
    method := req.method }

/-- The tail of `MotiaServer.handleRequest` after the authorization check
passed (or was absent): the single `try { transform; emit; 200 } catch
{ 400 }` block.  A missing `transform` would throw a `TypeError` inside the
same `try`, hence also a 400. -/
def handleAfterAuth (t : TrafficConfig)
    (emit : Event → EmitOptions → Except String Unit) (req : Request) : HandleResult :=
  match t.transform with
  | none =>
    { response := { status := 400, body := "traffic.transform is not a function" }
      emitted := []
      transformCalled := false }
  | some transformFn =>
    match transformFn req with
    | Except.error msg =>
      { response := { status := 400, body := msg }, emitted := [], transformCalled := true }
    | Except.ok event =>
      match emit event (emitOptionsFor req) with
      | Except.error msg =>
        { response := { status := 400, body := msg }, emitted := [], transformCalled := true }
      | Except.ok _ =>
        { response := { status := 200, body := "success:" ++ event.type }
          emitted := [(event, emitOptionsFor req)]
          transformCalled := true }

/--
`MotiaServer.handleRequest(req, res)` from the source: 404 on an unknown
path; when the route has an `authorize` check, its rejection yields a 401
and returns before `transform` runs; then `transform` and `core.emit` run
inside one `try` whose `catch` answers 400; success answers
`200 { success: true, eventType }`.  The core's emit effect is passed in as
the function `emit`.
-/
def handleRequest (traffic : TrafficMap)
    (emit : Event → EmitOptions → Except String Unit) (req : Request) : HandleResult :=
  match mapGet traffic req.path with
  | none =>
    { response := { status := 404, body := "Traffic not found" }
      emitted := []
      transformCalled := false }
  | some t =>
    match t.authorize with
    | some authorizeFn =>
      match authorizeFn req with
      | Except.error msg =>
        { response := { status := 401, body := msg }, emitted := [], transformCalled := false }
      | Except.ok _ => handleAfterAuth t emit req
    | none => handleAfterAuth t emit req

/-- A schedule definition as loaded by `MotiaScheduler.initialize`:
`{ interval, eventType }`. -/
structure Schedule where
  interval : String
  eventType : String
  deriving DecidableEq, Repr

/--
`MotiaScheduler.start()` from the source:

```js
this.schedules.forEach((schedule, id) => {
  const interval = this.parseSchedule(schedule.interval);
  const job = setInterval(..., interval);
  this.activeJobs.set(id, job);
});
```

`Map.forEach` iterates in insertion order and does not catch exceptions: a
throw inside `parseSchedule` aborts the whole iteration.  The result is the
list of activated jobs (schedule id with its parsed interval in ms), paired
with the first thrown error message, if any; schedules after the throwing
one are never activated.
-/
def schedulerStart : List (String × Schedule) → List (String × Nat) × Option String
  | [] => ([], none)
  | (id, schedule) :: rest =>
    match parseSchedule schedule.interval with
    | Except.error msg => ([], some msg)
    | Except.ok ms => ((id, ms) :: (schedulerStart rest).1, (schedulerStart rest).2)

/-- The request shape the TypeScript server hands to an API step handler. -/
structure ApiRequest where
  body : String
  headers : List (String × String)
  deriving DecidableEq, Repr

/-- An API step handler's terminal result: `{ status, body }`. -/
structure StepResult where
  status : Nat
  body : String
  deriving DecidableEq, Repr

/-- An event as emitted through the TypeScript server's event manager:
`{ data, type, traceId, ... }`. -/
structure BridgeEvent where
  type : String
  data : String
  traceId : String
  deriving DecidableEq, Repr

/-- An API step handler for `asyncHandler`: it receives the request and the
trace id of its context, and produces either a terminal result together
with the `(type, data)` pairs it emitted through `ctx.emit`, or a thrown
error. -/
abbrev ApiHandler : Type :=
  ApiRequest → String → Except String (StepResult × List (String × String))

/--
The request handler built by `asyncHandler` in the TypeScript
`createServer`:

```ts
const traceId = randomUUID()
...
const emit = async ({ data, type }) => {
  await eventManager.emit({ data, type, traceId, flows, logger }, step.filePath)
}
try {
  const result = await handler(request, { emit, state, logger, traceId })
  res.status(result.status); res.json(result.body)
} catch (error) { res.status(500).json({ error: 'Internal server error' }) }
```

`randomUUID()` is modelled by the environment-supplied fresh value
`freshId`; note the inbound request headers play no part in choosing the
trace id.  Every event emitted by the handler is stamped with that same
`traceId`.
-/
def asyncHandler (freshId : String) (handler : ApiHandler) (req : ApiRequest) :
    Response × List BridgeEvent :=
  match handler req freshId with
  | Except.ok (result, emits) =>
    ({ status := result.status, body := result.body },
      emits.map (fun e => { type := e.1, data := e.2, traceId := freshId }))
  | Except.error _ => ({ status := 500, body := "Internal server error" }, [])

/-- The registration guard of `registerTraffic`, as a predicate: the
configuration passes the `!config.path || !config.method ||
!config.transform` falsiness check. -/
def validTraffic (c : TrafficConfig) : Bool :=
  !(c.path = "" || c.method = "" || c.transform.isNone)

/-! ### Concrete fixtures used by witnesses and counterexamples -/

/-- A subscriber that always fulfils. -/
def subOkA : Subscriber := fun _ _ => Except.ok ()

/-- A subscriber that always rejects. -/
def subFail : Subscriber := fun _ _ => Except.error "boom"

/-- Another subscriber that always fulfils. -/
def subOkB : Subscriber := fun _ _ => Except.ok ()

/-- A concrete event. -/
def c5Event : Event := { type := "order.created", data := "d" }

/-- Concrete emit options carrying a trace id. -/
def c5Opts : EmitOptions :=
  { traceId := some "t-1", source := "http", path := "/p", method := "POST" }

/-- Concrete emit options whose trace id differs from the event type. -/
def c4Opts : EmitOptions :=
  { traceId := some "trace-123", source := "http", path := "/orders", method := "POST" }

/-- A concrete event delivered to a component. -/
def c4Event : Event := { type := "order.created", data := "payload" }

/-- A plain route: no authorization, transform always succeeds. -/
def plainCfg : TrafficConfig :=
  { path := "/orders", method := "POST", authorize := none
    transform := some (fun _ => Except.ok { type := "order.created", data := "p" }) }

/-- A route whose authorization check always rejects. -/
def authCfg : TrafficConfig :=
  { path := "/secure", method := "POST"
    authorize := some (fun _ => Except.error "unauthorized")
    transform := some (fun _ => Except.ok { type := "secure.hit", data := "" }) }

/-- First of two configs claiming the same path (method GET). -/
def dupCfgA : TrafficConfig :=
  { path := "/dup", method := "GET", authorize := none
    transform := some (fun _ => Except.ok { type := "a.created", data := "" }) }

/-- Second of two configs claiming the same path (method POST). -/
def dupCfgB : TrafficConfig :=
  { path := "/dup", method := "POST", authorize := none
    transform := some (fun _ => Except.ok { type := "b.created", data := "" }) }

/-- A route whose authorization check always passes, with a transform that
always succeeds. -/
def authOkCfg : TrafficConfig :=
  { path := "/orders", method := "POST"
    authorize := some (fun _ => Except.ok ())
    transform := some (fun _ => Except.ok { type := "order.created", data := "p" }) }

/-- A core emit effect that always succeeds. -/
def emitOk : Event → EmitOptions → Except String Unit := fun _ _ => Except.ok ()

/-- A core emit effect that always fails (an unexpected failure during
event emission). -/
def emitFail : Event → EmitOptions → Except String Unit := fun _ _ => Except.error "emit boom"

/-- A request to `/orders` carrying no `x-trace-id` header. -/
def ordersReq : Request :=
  { path := "/orders", method := "POST", headers := [], body := "{}" }

/-- A request to `/secure`. -/
def secureReq : Request :=
  { path := "/secure", method := "POST", headers := [], body := "{}" }

/-- A request to `/orders` carrying an inbound `x-trace-id` header. -/
def headeredReq : Request :=
  { path := "/orders", method := "POST"
    headers := [("x-trace-id", "trace-abc")], body := "{}" }

/-- The event `plainCfg`'s transform produces. -/
def c3Event : Event := { type := "order.created", data := "p" }

/-- An API step handler that returns 200 and emits nothing. -/
def trivialApiHandler : ApiHandler :=
  fun _ _ => Except.ok ({ status := 200, body := "ok" }, [])

/-- A concrete API request. -/
def trivialApiReq : ApiRequest := { body := "", headers := [] }

/-! ## Helper lemmas -/

/-- A pattern always matches its own event type. -/
theorem eventMatchesPattern_self (T : String) : eventMatchesPattern T T = true := by
  by_cases h : T = "*" <;> simp [eventMatchesPattern, h]

/-- The `.catch` wrapper never rejects. -/
theorem catchSubscriberError_ok (r : Except String Unit) :
    catchSubscriberError r = Except.ok () := by
  cases r <;> rfl

/-- `publish` always fulfils, with one unit value per subscriber. -/
theorem publish_ok (subscribers : List Subscriber) (event : Event) (options : EmitOptions) :
    publish subscribers event options = Except.ok (subscribers.map (fun _ => ())) := by
  induction subscribers with
  | nil => rfl
  | cons s rest ih =>
    have hcatch : catchSubscriberError (s event options) = Except.ok () :=
      catchSubscriberError_ok _
    calc publish (s :: rest) event options
        = promiseAll (catchSubscriberError (s event options) ::
            rest.map (fun sub => catchSubscriberError (sub event options))) := rfl
      _ = promiseAll (Except.ok () ::
            rest.map (fun sub => catchSubscriberError (sub event options))) := by rw [hcatch]
      _ = (match publish rest event options with
            | Except.ok us => Except.ok (() :: us)
            | Except.error e => Except.error e) := rfl
      _ = Except.ok (() :: rest.map (fun _ => ())) := by rw [ih]
      _ = Except.ok ((s :: rest).map (fun _ => ())) := rfl

/-- Any error `parseSchedule` throws is the templated message built from
the interval string itself. -/
theorem parseSchedule_error_msg (s msg : String)
    (h : parseSchedule s = Except.error msg) :
    msg = "Invalid schedule format: " ++ s := by
  unfold parseSchedule at h
  by_cases h1 : timeRegexAccepts s.toList = true
  · rw [if_pos h1] at h; exact absurd h (by simp)
  · rw [if_neg h1] at h
    by_cases h2 : (splitOnSpace s.toList).length = 5
    · rw [if_pos h2] at h; exact absurd h (by simp)
    · rw [if_neg h2] at h
      injection h with hmsg
      exact hmsg.symm

/-- After `Map.set`, `Map.get` at that key yields the new value. -/
theorem mapGet_mapSet_self (m : TrafficMap) (k : String) (v : TrafficConfig) :
    mapGet (mapSet m k v) k = some v := by
  induction m with
  | nil => simp [mapSet, mapGet]
  | cons hd tl ih =>
    obtain ⟨k', v'⟩ := hd
    by_cases h : k' = k <;> simp [mapSet, mapGet, h, ih]

/-- Every entry of `Map.set`'s result either has the inserted key or was
already present. -/
theorem mem_mapSet (m : TrafficMap) (k : String) (v : TrafficConfig)
    (kv : String × TrafficConfig) (h : kv ∈ mapSet m k v) :
    kv.1 = k ∨ kv ∈ m := by
  induction m with
  | nil =>
    simp [mapSet] at h
    subst h
    exact Or.inl rfl
  | cons hd tl ih =>
    obtain ⟨k', v'⟩ := hd
    by_cases hk : k' = k
    · simp [mapSet, hk] at h
      rcases h with h | h
      · subst h; exact Or.inl rfl
      · exact Or.inr (List.mem_cons_of_mem _ h)
    · simp [mapSet, hk] at h
      rcases h with h | h
      · subst h; exact Or.inr (List.mem_cons_self _ _)
      · rcases ih h with h | h
        · exact Or.inl h
        · exact Or.inr (List.mem_cons_of_mem _ h)

/-- The normalized route key always begins with a slash. -/
theorem normalizePath_startsWith (p : String) :
    startsWithChars (normalizePath p).toList ['/'] = true := by
  unfold normalizePath
  by_cases h : startsWithChars p.toList ['/'] = true
  · rw [if_pos h]; exact h
  · rw [if_neg h]
    show startsWithChars ('/' :: p.toList) ['/'] = true
    simp [startsWithChars]

/-- A valid configuration passes `registerTraffic`'s guard and is stored
under its normalized path. -/
theorem registerTraffic_valid (m : TrafficMap) (c : TrafficConfig)
    (h : validTraffic c = true) :
    registerTraffic m c = Except.ok (mapSet m (normalizePath c.path) c) := by
  have hc : (decide (c.path = "") || decide (c.method = "") || c.transform.isNone) = false := by
    simpa [validTraffic] using h
  simp [registerTraffic, hc]

/-- Every event `handleAfterAuth` emits carries the options built by
`emitOptionsFor` (in particular the inbound-header trace id). -/
theorem handleAfterAuth_emitted (t : TrafficConfig)
    (emit : Event → EmitOptions → Except String Unit) (req : Request)
    (p : Event × EmitOptions) (hp : p ∈ (handleAfterAuth t emit req).emitted) :
    p.2 = emitOptionsFor req := by
  unfold handleAfterAuth at hp
  split at hp
  · simp at hp
  · split at hp
    · simp at hp
    · split at hp
      · simp at hp
      · simp at hp
        rw [hp]

/-- `split` never returns an empty token list (JS `"".split(" ")` is
`[""]`). -/
theorem splitOnSpace_ne_nil (cs : List Char) : splitOnSpace cs ≠ [] := by
  cases cs with
  | nil => simp [splitOnSpace]
  | cons c rest =>
    unfold splitOnSpace
    by_cases h : c = ' '
    · rw [if_pos h]; simp
    · rw [if_neg h]
      cases hsp : splitOnSpace rest <;> simp

/-- A character list without spaces splits into exactly one token. -/
theorem splitOnSpace_no_space (cs : List Char) (h : ∀ c ∈ cs, c ≠ ' ') :
    (splitOnSpace cs).length = 1 := by
  induction cs with
  | nil => rfl
  | cons c rest ih =>
    have hc : c ≠ ' ' := h c (List.mem_cons_self _ _)
    have ihres := ih (fun x hx => h x (List.mem_cons_of_mem _ hx))
    unfold splitOnSpace
    rw [if_neg hc]
    cases hsp : splitOnSpace rest with
    | nil => exact absurd hsp (splitOnSpace_ne_nil rest)
    | cons t ts =>
      rw [hsp] at ihres
      simpa using ihres

/-- A string accepted by `^(\d+)(s|m|h|d)$` contains no space: its digit
block and its unit letter are all non-space characters. -/
theorem timeRegexAccepts_no_space (cs : List Char) (h : timeRegexAccepts cs = true) :
    ∀ c ∈ cs, c ≠ ' ' := by
  intro c hc hsp
  subst hsp
  unfold timeRegexAccepts at h
  cases hlast : cs.getLast? with
  | none => rw [hlast] at h; simp at h
  | some u =>
    rw [hlast] at h
    simp only [Bool.and_eq_true] at h
    obtain ⟨⟨hu, hne⟩, hdigits⟩ := h
    have hnil : cs ≠ [] := by
      intro hn; rw [hn] at hlast; exact Option.noConfusion hlast
    have hlasteq : cs.getLast hnil = u := by
      have h2 := List.getLast?_eq_getLast cs hnil
      rw [hlast] at h2
      injection h2 with h3
      exact h3.symm
    have hdecomp : cs.dropLast ++ [u] = cs := by
      rw [← hlasteq]; exact List.dropLast_append_getLast hnil
    rw [← hdecomp] at hc
    rcases List.mem_append.mp hc with hmem | hmem
    · exact absurd (List.all_eq_true.mp hdigits ' ' hmem) (by decide)
    · have hueq : u = ' ' := (List.mem_singleton.mp hmem).symm
      subst hueq
      exact absurd hu (by decide)

/-- Every string with exactly 5 space-separated tokens takes the degraded
cron branch of `parseSchedule`: the time regex cannot accept it (it would
have to be space-free, hence a single token), so the 5-token check fires
and returns the fixed hour. -/
theorem parseSchedule_five_tokens (s : String)
    (h5 : (splitOnSpace s.toList).length = 5) :
    parseSchedule s = Except.ok 3600000 := by
  have hreg : ¬ timeRegexAccepts s.toList = true := by
    intro hr
    have h1 := splitOnSpace_no_space s.toList (timeRegexAccepts_no_space s.toList hr)
    rw [h1] at h5
    exact absurd h5 (by decide)
  unfold parseSchedule
  rw [if_neg hreg, if_pos h5]

/-- Unfolding `schedulerStart` over a head schedule that parses. -/
theorem schedulerStart_cons_ok (id2 : String) (sch2 : Schedule)
    (rest : List (String × Schedule)) (ms : Nat)
    (h : parseSchedule sch2.interval = Except.ok ms) :
    schedulerStart ((id2, sch2) :: rest) =
      ((id2, ms) :: (schedulerStart rest).1, (schedulerStart rest).2) := by
  conv_lhs => rw [schedulerStart]
  rw [h]

/-- Unfolding `schedulerStart` over a head schedule that throws. -/
theorem schedulerStart_cons_error (id2 : String) (sch2 : Schedule)
    (rest : List (String × Schedule)) (msg : String)
    (h : parseSchedule sch2.interval = Except.error msg) :
    schedulerStart ((id2, sch2) :: rest) = ([], some msg) := by
  conv_lhs => rw [schedulerStart]
  rw [h]

/-- Every event `handleRequest` emits carries the options built by
`emitOptionsFor`. -/
theorem handleRequest_emitted (traffic : TrafficMap)
    (emit : Event → EmitOptions → Except String Unit) (req : Request)
    (p : Event × EmitOptions) (hp : p ∈ (handleRequest traffic emit req).emitted) :
    p.2 = emitOptionsFor req := by
  unfold handleRequest at hp
  split at hp
  · simp at hp
  · split at hp
    · split at hp
      · simp at hp
      · exact handleAfterAuth_emitted _ _ _ _ hp
    · exact handleAfterAuth_emitted _ _ _ _ hp

/-! ## Claims -/

/-- C1 (counterexample): the claim asserts
`match("orderline.created", "order.*")` is false, but
`eventMatchesPattern` strips the whole `".*"` (dot included) with
`slice(0, -2)` before the `startsWith` comparison, so
`"orderline.created"` matches `"order.*"`. -/
theorem eventMatchesPattern_orderline_matches :
    eventMatchesPattern "orderline.created" "order.*" = true := by decide

/-- C1 (amended): for every event type `T` and pattern `P`:
`match(T, T)` is true; `match(T, "*")` is true; a suffix-wildcard pattern
(one ending in `".*"`) matches exactly when `T` begins with the pattern
minus its final two characters — the separating dot is **not** part of the
compared leading segment, so `"order.*"` matches `"orderline.created"` as
well as `"order.created"`; every other pattern shape yields no match. -/
theorem eventMatchesPattern_spec (T P : String) :
    eventMatchesPattern T T = true ∧
    eventMatchesPattern T "*" = true ∧
    (endsWithChars P.toList ['.', '*'] = true →
      (eventMatchesPattern T P = true ↔
        (startsWithChars T.toList (P.toList.dropLast.dropLast) = true ∨ T = P))) ∧
    (endsWithChars P.toList ['.', '*'] = false → P ≠ "*" → P ≠ T →
      eventMatchesPattern T P = false) := by
  refine ⟨eventMatchesPattern_self T, by simp [eventMatchesPattern], ?_, ?_⟩
  · intro hsuf
    have hPstar : P ≠ "*" := by
      intro hP
      subst hP
      exact absurd hsuf (by decide)
    by_cases hPT : P = T
    · subst hPT
      exact ⟨fun _ => Or.inr rfl, fun _ => eventMatchesPattern_self P⟩
    · have hred : eventMatchesPattern T P =
          startsWithChars T.toList (P.toList.dropLast.dropLast) := by
        unfold eventMatchesPattern
        rw [if_neg hPstar, if_neg hPT, if_pos hsuf]
      rw [hred]
      constructor
      · exact Or.inl
      · rintro (hs | hs)
        · exact hs
        · exact absurd hs.symm hPT
  · intro h1 h2 h3
    have h1n : ¬ endsWithChars P.toList ['.', '*'] = true := by
      rw [h1]; exact Bool.false_ne_true
    unfold eventMatchesPattern
    rw [if_neg h2, if_neg h3, if_neg h1n]

/-- C1 (witness): the amended suffix-wildcard clause at the concrete pair
`("order.created", "order.*")`. -/
theorem eventMatchesPattern_spec_witness :
    eventMatchesPattern "order.created" "order.*" = true :=
  ((eventMatchesPattern_spec "order.created" "order.*").2.2.1 (by decide)).mpr
    (Or.inl (by decide))

/-- C5: publishing to `N` matching subscribers where one rejects still
invokes all the others with the same event (the `i`-th outcome of the
fan-out round is exactly the `i`-th subscriber applied to this event), and
`publish` still resolves — it fulfils with one unit per subscriber, never
rejecting, because each subscriber promise is wrapped in a `.catch`. -/
theorem publish_isolates_failures (subscribers : List Subscriber) (event : Event)
    (options : EmitOptions) (i : Fin subscribers.length) (err : String)
    (hfail : subscribers.get i event options = Except.error err) :
    publish subscribers event options = Except.ok (subscribers.map (fun _ => ())) ∧
    ∀ j (hj : j < subscribers.length),
      (publishOutcomes subscribers event options).get
          ⟨j, by simpa [publishOutcomes] using hj⟩ =
        subscribers.get ⟨j, hj⟩ event options := by
  refine ⟨publish_ok subscribers event options, ?_⟩
  intro j hj
  simp [publishOutcomes]

/-- C5 (witness): three subscribers, the middle one always rejecting;
`publish` fulfils with all three units. -/
theorem publish_isolates_failures_witness :
    publish [subOkA, subFail, subOkB] c5Event c5Opts =
      Except.ok ([subOkA, subFail, subOkB].map (fun _ => ())) :=
  (publish_isolates_failures [subOkA, subFail, subOkB] c5Event c5Opts
    ⟨1, by decide⟩ "boom" rfl).1

/-- C9: the schedule parser maps `"30s"` to 30000 ms, `"2h"` to
7200000 ms, **every** string with exactly 5 space-separated tokens — such
as `"* * * * *"` — to the degraded fixed 3600000 ms, rejects `"abc"` with
the named parse error, and rejects every string matching neither the
`<integer><unit>` grammar (unit ∈ {s,m,h,d}) nor the 5-token form with the
same named error. -/
theorem parseSchedule_spec :
    parseSchedule "30s" = Except.ok 30000 ∧
    parseSchedule "2h" = Except.ok 7200000 ∧
    parseSchedule "* * * * *" = Except.ok 3600000 ∧
    parseSchedule "abc" = Except.error "Invalid schedule format: abc" ∧
    (∀ s : String, (splitOnSpace s.toList).length = 5 →
      parseSchedule s = Except.ok 3600000) ∧
    (∀ s : String, timeRegexAccepts s.toList = false →
      (splitOnSpace s.toList).length ≠ 5 →
      parseSchedule s = Except.error ("Invalid schedule format: " ++ s)) := by
  refine ⟨by rfl, by rfl, by rfl, by rfl, parseSchedule_five_tokens, ?_⟩
  intro s h1 h2
  have h1n : ¬ timeRegexAccepts s.toList = true := by
    rw [h1]; exact Bool.false_ne_true
  unfold parseSchedule
  rw [if_neg h1n, if_neg h2]

/-- C9 (witness): the universal cron clause applied at the 5-token string
`"0 0 * * 1"` and the general rejection clause applied at `"abc"`. -/
theorem parseSchedule_spec_witness :
    (splitOnSpace ("0 0 * * 1").toList).length = 5 ∧
    parseSchedule "0 0 * * 1" = Except.ok 3600000 ∧
    timeRegexAccepts ("abc").toList = false ∧
    (splitOnSpace ("abc").toList).length ≠ 5 ∧
    parseSchedule "abc" = Except.error ("Invalid schedule format: " ++ "abc") :=
  ⟨by decide, parseSchedule_spec.2.2.2.2.1 "0 0 * * 1" (by decide), by decide, by decide,
   parseSchedule_spec.2.2.2.2.2 "abc" (by decide) (by decide)⟩

/-- C2 (counterexample): registering a second config for the already-taken
path `"/dup"` is not rejected — `registerTraffic` returns successfully and
the stored config for `"/dup"` is now the second one (`Map.set` silently
replaces), even though the two configs differ (GET vs POST). -/
theorem registerTraffic_duplicate_overwrites :
    registerTraffic [("/dup", dupCfgA)] dupCfgB = Except.ok [("/dup", dupCfgB)] ∧
    dupCfgA.method ≠ dupCfgB.method :=
  ⟨rfl, by decide⟩

/-- C2 (amended): when two valid traffic configurations are registered for
the same externally routable path, the second registration is accepted
without any conflict error and silently replaces the first: afterwards the
active configuration for that path is the second one. -/
theorem registerTraffic_last_wins (m : TrafficMap) (c₁ c₂ : TrafficConfig)
    (h₁ : validTraffic c₁ = true) (h₂ : validTraffic c₂ = true)
    (hp : normalizePath c₁.path = normalizePath c₂.path) :
    registerTraffic m c₁ = Except.ok (mapSet m (normalizePath c₁.path) c₁) ∧
    registerTraffic (mapSet m (normalizePath c₁.path) c₁) c₂ =
      Except.ok (mapSet (mapSet m (normalizePath c₁.path) c₁) (normalizePath c₂.path) c₂) ∧
    mapGet (mapSet (mapSet m (normalizePath c₁.path) c₁) (normalizePath c₂.path) c₂)
      (normalizePath c₁.path) = some c₂ := by
  refine ⟨registerTraffic_valid m c₁ h₁, registerTraffic_valid _ c₂ h₂, ?_⟩
  rw [hp]
  exact mapGet_mapSet_self _ _ _

/-- C2 (witness): the two `/dup` configs registered in sequence from the
empty map; the lookup afterwards yields the second config. -/
theorem registerTraffic_last_wins_witness :
    mapGet (mapSet (mapSet [] (normalizePath dupCfgA.path) dupCfgA)
        (normalizePath dupCfgB.path) dupCfgB) (normalizePath dupCfgA.path) = some dupCfgB :=
  (registerTraffic_last_wins [] dupCfgA dupCfgB (by decide) (by decide) rfl).2.2

/-- C4 (counterexample): the subscription wrapper invokes the component
with `event.type` as the third argument even though the chain's trace id
(carried in the inherited options) is `"trace-123"` — the third argument is
the event type, not the trace id. -/
theorem subscriptionWrapper_thirdArg_is_type :
    (subscriptionWrapper "order.created" c4Event c4Opts).map
        (fun call => call.thirdArg) = some "order.created" ∧
    c4Opts.traceId = some "trace-123" ∧
    ("order.created" : String) ≠ "trace-123" :=
  ⟨rfl, rfl, by decide⟩

/-- C4 (amended): for every registered component and every event delivered
to it (i.e. whose type matches the subscription pattern), the core invokes
the handler entry point with three arguments in the order
`(input, emitFn, eventType)`: the input is `event.data`, the emit closure
re-publishes under the inherited options (so the chain's trace context is
preserved by emits), and the third argument is the event's type string —
not the trace id. -/
theorem subscriptionWrapper_args (eventPattern : String) (event : Event)
    (opts : EmitOptions) (h : eventMatchesPattern event.type eventPattern = true) :
    ∃ call, subscriptionWrapper eventPattern event opts = some call ∧
      call.input = event.data ∧
      call.thirdArg = event.type ∧
      ∀ e, call.emitFn e = (e, opts) := by
  refine ⟨{ input := event.data, emitFn := fun e => (e, opts), thirdArg := event.type },
    ?_, rfl, rfl, fun e => rfl⟩
  unfold subscriptionWrapper
  rw [if_pos h]

/-- C4 (witness): the wrapper for pattern `"order.*"` on a concrete
matching event invokes the component with `("payload", _, "order.created")`. -/
theorem subscriptionWrapper_args_witness :
    (subscriptionWrapper "order.*" c4Event c4Opts).map
        (fun call => (call.input, call.thirdArg)) = some ("payload", "order.created") := by
  obtain ⟨call, hc, hi, ht, _⟩ :=
    subscriptionWrapper_args "order.*" c4Event c4Opts (by decide)
  rw [hc]
  simp [Option.map_some]
  exact ⟨hi, ht⟩

/-- C6 (counterexample): with two loaded schedules — `"bad"` whose interval
`"abc"` is unparseable, followed by `"good"` with the valid interval
`"30s"` — `start()` activates nothing: the throw inside `forEach` aborts
the iteration, so `"good"` is not activated, and the raised error names the
interval string `"abc"`, not the schedule id `"bad"`. -/
theorem schedulerStart_aborts_counterexample :
    schedulerStart [("bad", { interval := "abc", eventType := "tick" }),
                    ("good", { interval := "30s", eventType := "tick" })] =
      ([], some "Invalid schedule format: abc") := rfl

/-- C6 (amended): when `start()` encounters a schedule whose interval
string is unparseable, it raises an error naming the offending interval
string (not the schedule id); the activated jobs are **exactly** the
schedules iterated before the offending one — their ids, in iteration
order, and nothing else — so the offending schedule and every schedule
after it are not activated. -/
theorem schedulerStart_aborts (pre : List (String × Schedule)) (id : String)
    (sch : Schedule) (post : List (String × Schedule)) (msg : String)
    (hbad : parseSchedule sch.interval = Except.error msg)
    (hpre : ∀ p ∈ pre, ∃ ms, parseSchedule p.2.interval = Except.ok ms) :
    (schedulerStart (pre ++ (id, sch) :: post)).2 =
        some ("Invalid schedule format: " ++ sch.interval) ∧
    (schedulerStart (pre ++ (id, sch) :: post)).1.map Prod.fst = pre.map Prod.fst := by
  induction pre with
  | nil =>
    have hmsg := parseSchedule_error_msg _ _ hbad
    subst hmsg
    rw [List.nil_append, schedulerStart_cons_error id sch post _ hbad]
    exact ⟨rfl, rfl⟩
  | cons hd tl ih =>
    obtain ⟨hid, hsch⟩ := hd
    obtain ⟨ms, hms⟩ := hpre (hid, hsch) (List.mem_cons_self _ _)
    have ihres := ih (fun p hp => hpre p (List.mem_cons_of_mem _ hp))
    rw [List.cons_append, schedulerStart_cons_ok hid hsch _ ms hms]
    refine ⟨ihres.1, ?_⟩
    simp only [List.map_cons]
    rw [ihres.2]

/-- C6 (witness): with schedules `first` (valid), `bad2` (interval
`"abc"`), `late` (valid) in that order, exactly `first` is activated —
`late` is not — and the raised error is built from the interval string
`"abc"`, not the schedule id. -/
theorem schedulerStart_aborts_witness :
    (schedulerStart [("first", { interval := "30s", eventType := "tick" }),
                     ("bad2", { interval := "abc", eventType := "tick" }),
                     ("late", { interval := "2h", eventType := "tick" })]).2 =
        some ("Invalid schedule format: " ++ "abc") ∧
    (schedulerStart [("first", { interval := "30s", eventType := "tick" }),
                     ("bad2", { interval := "abc", eventType := "tick" }),
                     ("late", { interval := "2h", eventType := "tick" })]).1.map Prod.fst =
      ["first"] :=
  schedulerStart_aborts [("first", { interval := "30s", eventType := "tick" })]
    "bad2" { interval := "abc", eventType := "tick" }
    [("late", { interval := "2h", eventType := "tick" })] "Invalid schedule format: abc"
    rfl (by intro p hp; simp at hp; rw [hp]; exact ⟨30000, rfl⟩)

/-- C7: when a route's authorization check rejects, `handleRequest`
answers 401, the transform function is never invoked, and no event is
emitted (so no downstream handler can be called — the handler call count
stays 0). -/
theorem handleRequest_auth_short_circuit (traffic : TrafficMap)
    (emit : Event → EmitOptions → Except String Unit) (req : Request)
    (t : TrafficConfig) (authorizeFn : Request → Except String Unit) (msg : String)
    (ht : mapGet traffic req.path = some t)
    (ha : t.authorize = some authorizeFn)
    (hr : authorizeFn req = Except.error msg) :
    handleRequest traffic emit req =
      { response := { status := 401, body := msg }
        emitted := []
        transformCalled := false } := by
  simp only [handleRequest, ht, ha, hr]

/-- C7 (witness): the `/secure` route whose check always rejects answers
401 with nothing emitted and the transform not called. -/
theorem handleRequest_auth_short_circuit_witness :
    handleRequest [("/secure", authCfg)] emitOk secureReq =
      { response := { status := 401, body := "unauthorized" }
        emitted := []
        transformCalled := false } :=
  handleRequest_auth_short_circuit [("/secure", authCfg)] emitOk secureReq authCfg
    (fun _ => Except.error "unauthorized") "unauthorized" rfl rfl rfl

/-- C3 (counterexample): an inbound request carrying no inbound trace
header.  The claim says a new trace id is minted for it; in fact
`handleRequest` attaches `req.headers["x-trace-id"]` verbatim, so the
emitted event's context carries **no** trace id at all (`none`) — nothing
is minted. -/
theorem handleRequest_no_minted_trace :
    (handleRequest [("/orders", plainCfg)] emitOk ordersReq).emitted.map
        (fun p => p.2.traceId) = [none] := rfl

/-- C3 (amended): in the `MotiaServer` trigger adapter, the trace id
attached to the emitted event's context is exactly the inbound
`x-trace-id` header's value — absent (`none`) when the request carries no
such header; no new id is minted.  In the TypeScript `createServer`
adapter, every emitted event is stamped with the freshly minted id
(`randomUUID()`), regardless of any inbound header. -/
theorem trace_id_attachment (traffic : TrafficMap)
    (emit : Event → EmitOptions → Except String Unit) (req : Request)
    (freshId : String) (handler : ApiHandler) (areq : ApiRequest) :
    (∀ p ∈ (handleRequest traffic emit req).emitted,
        p.2.traceId = headerGet req "x-trace-id") ∧
    (∀ be ∈ (asyncHandler freshId handler areq).2, be.traceId = freshId) := by
  constructor
  · intro p hp
    rw [handleRequest_emitted traffic emit req p hp]
    rfl
  · intro be hbe
    unfold asyncHandler at hbe
    split at hbe
    · simp [List.mem_map] at hbe
      obtain ⟨e, w, hmem, heq⟩ := hbe
      rw [← heq]
    · simp at hbe

/-- C3 (witness): the two clauses at concrete inputs — a request whose
`x-trace-id` header is `"trace-abc"` gets exactly that value attached, and
a handler run under the minted id `"fresh-1"` stamps its emissions with
`"fresh-1"`. -/
theorem trace_id_attachment_witness :
    (c3Event, emitOptionsFor headeredReq).2.traceId = headerGet headeredReq "x-trace-id" :=
  (trace_id_attachment [("/orders", plainCfg)] emitOk headeredReq "fresh-1"
      trivialApiHandler trivialApiReq).1
    (c3Event, emitOptionsFor headeredReq) (by decide)

/-- C8 (counterexample): a route whose transform succeeds but whose event
emission then fails.  The claim says such a failure yields a 500-equivalent
response, never a 400; in fact `core.emit` runs inside the same
`try/catch` as the transform, so the response is 400 with the emission
error's message. -/
theorem handleRequest_emit_error_400 :
    (handleRequest [("/orders", plainCfg)] emitFail ordersReq).transformCalled = true ∧
    (handleRequest [("/orders", plainCfg)] emitFail ordersReq).response =
      { status := 400, body := "emit boom" } :=
  ⟨rfl, rfl⟩

/-- C8 (amended): on a registered route whose authorization check is
absent or passes, an error thrown by the transform yields a 400-equivalent
response, and a failure during event emission after a successful transform
**also** yields a 400-equivalent response — both are caught by the single
`try/catch` around `transform` and `core.emit`; only failures escaping
`handleRequest` entirely are answered 500 by the wrapper installed in
`initialize`. -/
theorem handleRequest_catch_maps_to_400 (traffic : TrafficMap)
    (emit : Event → EmitOptions → Except String Unit) (req : Request)
    (t : TrafficConfig) (transformFn : Request → Except String Event) (msg : String)
    (ht : mapGet traffic req.path = some t)
    (hauth : ∀ authorizeFn, t.authorize = some authorizeFn →
      authorizeFn req = Except.ok ())
    (htf : t.transform = some transformFn) :
    (transformFn req = Except.error msg →
      (handleRequest traffic emit req).response = { status := 400, body := msg }) ∧
    (∀ ev, transformFn req = Except.ok ev →
      emit ev (emitOptionsFor req) = Except.error msg →
      (handleRequest traffic emit req).response = { status := 400, body := msg }) := by
  have hkey : handleRequest traffic emit req = handleAfterAuth t emit req := by
    simp only [handleRequest, ht]
    cases hA : t.authorize with
    | none => rfl
    | some authorizeFn => simp only [hauth authorizeFn hA]
  constructor
  · intro herr
    rw [hkey]
    simp only [handleAfterAuth, htf, herr]
  · intro ev hok hemit
    rw [hkey]
    simp only [handleAfterAuth, htf, hok, hemit]

/-- C8 (witness): the emission-failure clause at the concrete `/orders`
route whose authorization check passes: the transform succeeds, the
emission rejects with `"emit boom"`, and the response is 400
`"emit boom"` (not 500). -/
theorem handleRequest_catch_maps_to_400_witness :
    (handleRequest [("/orders", authOkCfg)] emitFail ordersReq).response =
      { status := 400, body := "emit boom" } :=
  (handleRequest_catch_maps_to_400 [("/orders", authOkCfg)] emitFail ordersReq authOkCfg
      (fun _ => Except.ok { type := "order.created", data := "p" }) "emit boom"
      rfl (by intro authorizeFn h; injection h with h2; rw [← h2]) rfl).2 c3Event rfl rfl

/-- C10: `registerTraffic` normalizes the route path by prepending `"/"`
when the configured path does not already start with `"/"`: a path `p`
without a leading slash and the path `"/" ++ p` normalize to the same
route key (so `"foo"` and `"/foo"` collide), and after any valid
registration into a map whose keys all begin with `"/"`, every stored
route key still begins with `"/"`. -/
theorem registerTraffic_normalizes (m : TrafficMap) (c : TrafficConfig) (p : String)
    (hp : startsWithChars p.toList ['/'] = false)
    (hv : validTraffic c = true)
    (hm : ∀ kv ∈ m, startsWithChars kv.1.toList ['/'] = true) :
    normalizePath p = normalizePath ("/" ++ p) ∧
    ∃ m2, registerTraffic m c = Except.ok m2 ∧
      ∀ kv ∈ m2, startsWithChars kv.1.toList ['/'] = true := by
  constructor
  · have h1 : ¬ startsWithChars p.toList ['/'] = true := by
      rw [hp]; exact Bool.false_ne_true
    have h2 : startsWithChars ("/" ++ p).toList ['/'] = true := by
      show startsWithChars ('/' :: p.toList) ['/'] = true
      simp [startsWithChars]
    unfold normalizePath
    rw [if_neg h1, if_pos h2]
  · refine ⟨mapSet m (normalizePath c.path) c, registerTraffic_valid m c hv, ?_⟩
    intro kv hkv
    rcases mem_mapSet m (normalizePath c.path) c kv hkv with h | h
    · rw [h]; exact normalizePath_startsWith c.path
    · exact hm kv h

/-- C10 (witness): the collision at the concrete path `"foo"`: it
normalizes to the same key as `"/" ++ "foo"`. -/
theorem registerTraffic_normalizes_witness :
    normalizePath "foo" = normalizePath ("/" ++ "foo") :=
  (registerTraffic_normalizes [] dupCfgA "foo" (by decide) (by decide)
    (fun kv hkv => absurd hkv (List.not_mem_nil kv))).1

end Motia
